import Mathlib

/-
Verification of the hotel-service pricing calculator, stay-length
calculator, identifier generators and booking lifecycle store
(src/hotel-service/data.py and src/hotel-service/main.py).

Modelling conventions:
  * Python floats carrying decimal prices are modelled as exact
    rationals; Python's round(x, 2) builtin is modelled as
    round-half-to-even on the exact value (Python's documented tie rule).
  * random.uniform(0.9, 1.15) in the "dynamic" strategy and uuid-derived
    hex strings in the id generators are modelled as explicit parameters.
  * datetime.utcnow() is modelled as an explicit integer clock parameter.
  * datetime.fromisoformat is modelled on the documented ISO-8601 subset
    YYYY-MM-DD[*HH[:MM[:SS[.fff[fff]]]]][+HH:MM]; subtracting an
    offset-aware from an offset-naive datetime raises (caught by the bare
    except in calculate_nights), modelled by an Option-valued difference.
  * the in-memory dict bookings_storage is modelled as an association
    list in insertion order; assignment to an existing key replaces the
    value in place, assignment to a fresh key appends.
-/

/-- Round-half-to-even of a rational to an integer: the tie rule of
Python's round builtin, applied to the exact decimal value. -/
def roundHalfEven (q : ℚ) : ℤ :=
  if q - ⌊q⌋ < 1/2 then ⌊q⌋
  else if 1/2 < q - ⌊q⌋ then ⌊q⌋ + 1
  else if 2 ∣ ⌊q⌋ then ⌊q⌋ else ⌊q⌋ + 1

/-- Python's round(x, 2): round to 2 decimal places. -/
def round2 (q : ℚ) : ℚ := (roundHalfEven (q * 100) : ℚ) / 100

/-- The structured breakdown dict returned by
calculate_price_with_strategy (data.py): one shape per strategy. -/
inductive Breakdown where
  | perNight (per_night : ℚ) (nights : ℤ) (total : ℚ)
  | withFees (base taxes fees total : ℚ)
  | dynamic (original current savings : ℚ)
deriving DecidableEq, Repr

/-- Whether the breakdown dict has a "total" key, and its value
(the perNight and withFees dicts have one, the dynamic dict does not). -/
def Breakdown.totalEntry : Breakdown → Option ℚ
  | .perNight _ _ t => some t
  | .withFees _ _ _ t => some t
  | .dynamic _ _ _ => none

/-- The dict returned by calculate_price_with_strategy (data.py). -/
structure PriceInfo where
  display_price : ℚ
  label : String
  breakdown : Option Breakdown
deriving DecidableEq, Repr

/-- data.py calculate_price_with_strategy.  The random draw of
random.uniform(0.9, 1.15) used by the "dynamic" branch is the explicit
argument variation; every other branch ignores it. -/
def calculate_price_with_strategy (base_price : ℚ) (nights : ℤ) (strategy : String)
    (variation : ℚ) : PriceInfo :=
  let total := base_price * nights
  if strategy = "total" then
    { display_price := total, label := "Total Price", breakdown := none }
  else if strategy = "per-night" then
    { display_price := base_price, label := "Per Night",
      breakdown := some (.perNight base_price nights total) }
  else if strategy = "with-fees" then
    let taxes := total * (12/100)
    let fees : ℚ := 25
    let grand_total := total + taxes + fees
    { display_price := grand_total, label := "Total with Fees",
      breakdown := some (.withFees total (round2 taxes) fees (round2 grand_total)) }
  else if strategy = "dynamic" then
    let dynamic_price := total * variation
    let savings := if dynamic_price < total then total - dynamic_price else 0
    { display_price := round2 dynamic_price, label := "Dynamic Price",
      breakdown := some (.dynamic total (round2 dynamic_price)
        (if 0 < savings then round2 savings else 0)) }
  else
    { display_price := total, label := "Total Price", breakdown := none }

/-- Microseconds per day, the resolution of Python datetimes. -/
def usecPerDay : ℤ := 86400000000

/-- A parsed Python datetime: proleptic-Gregorian ordinal of the date
part (1 = 0001-01-01), wall-clock microseconds since midnight, and the
UTC offset in minutes (none for an offset-naive datetime). -/
structure PyDateTime where
  ordinal : ℤ
  usec : ℤ
  offsetMin : Option ℤ
deriving DecidableEq, Repr

/-- Gregorian leap-year rule (as in Python's datetime module). -/
def isLeapYear (y : ℕ) : Bool := y % 4 == 0 && (y % 100 != 0 || y % 400 == 0)

/-- Length of a month in a given year. -/
def daysInMonth (y m : ℕ) : ℕ :=
  if m = 2 then (if isLeapYear y then 29 else 28)
  else if m = 4 ∨ m = 6 ∨ m = 9 ∨ m = 11 then 30
  else 31

/-- Days in all years before year y (y ≥ 1), proleptic Gregorian. -/
def daysBeforeYear (y : ℕ) : ℕ :=
  365 * (y - 1) + (y - 1) / 4 - (y - 1) / 100 + (y - 1) / 400

/-- Days in the months of year y strictly before month m. -/
def daysBeforeMonth (y m : ℕ) : ℕ :=
  (List.range (m - 1)).foldl (fun acc i => acc + daysInMonth y (i + 1)) 0

/-- Proleptic-Gregorian ordinal of a civil date (1 = 0001-01-01). -/
def dateOrdinal (y m d : ℕ) : ℕ := daysBeforeYear y + daysBeforeMonth y m + d

/-- Parse exactly n decimal digits off the front of a character list. -/
def parseDigitsAux : ℕ → ℕ → List Char → Option (ℕ × List Char)
  | 0, acc, cs => some (acc, cs)
  | _ + 1, _, [] => none
  | n + 1, acc, c :: cs =>
    if c.isDigit then parseDigitsAux n (acc * 10 + (c.toNat - 48)) cs else none

/-- Parse exactly n decimal digits as a number. -/
def parseDigits (n : ℕ) (cs : List Char) : Option (ℕ × List Char) :=
  parseDigitsAux n 0 cs

/-- Consume one expected character. -/
def expectChar (a : Char) : List Char → Option (List Char)
  | [] => none
  | c :: cs => if c = a then some cs else none

/-- Parse the fractional-seconds digits after the dot: fromisoformat
accepts exactly 3 or 6 digits; result in microseconds. -/
def parseFraction (cs : List Char) : Option (ℤ × List Char) :=
  let ds := cs.takeWhile (·.isDigit)
  let rest := cs.dropWhile (·.isDigit)
  let v := ds.foldl (fun a c => a * 10 + (c.toNat - 48)) 0
  if ds.length = 3 then some (((v * 1000 : ℕ) : ℤ), rest)
  else if ds.length = 6 then some (((v : ℕ) : ℤ), rest)
  else none

/-- Parse an optional trailing UTC offset +HH:MM or -HH:MM; returns the
offset in minutes, or none when the input is already exhausted. -/
def parseOffset (cs : List Char) : Option (Option ℤ × List Char) :=
  match cs with
  | [] => some (none, [])
  | c :: rest =>
    if c = '+' ∨ c = '-' then
      match parseDigits 2 rest with
      | none => none
      | some (hh, r1) =>
        match expectChar ':' r1 with
        | none => none
        | some r2 =>
          match parseDigits 2 r2 with
          | none => none
          | some (mm, r3) =>
            if hh ≤ 23 ∧ mm ≤ 59 then
              some (some ((if c = '-' then (-1 : ℤ) else 1) * ((hh * 60 + mm : ℕ) : ℤ)), r3)
            else none
    else none

/-- Parse the time-of-day part HH[:MM[:SS[.fff[fff]]]] plus an optional
offset; the whole input must be consumed.  Returns wall-clock
microseconds since midnight and the offset. -/
def parseTime (cs : List Char) : Option (ℤ × Option ℤ) :=
  match parseDigits 2 cs with
  | none => none
  | some (hh, r1) =>
    if 23 < hh then none else
    match r1 with
    | ':' :: r2 =>
      match parseDigits 2 r2 with
      | none => none
      | some (mm, r3) =>
        if 59 < mm then none else
        match r3 with
        | ':' :: r4 =>
          match parseDigits 2 r4 with
          | none => none
          | some (ss, r5) =>
            if 59 < ss then none else
            match r5 with
            | '.' :: r6 =>
              match parseFraction r6 with
              | none => none
              | some (us, r7) =>
                match parseOffset r7 with
                | none => none
                | some (off, r8) =>
                  if r8 = [] then
                    some (((hh * 3600 + mm * 60 + ss : ℕ) : ℤ) * 1000000 + us, off)
                  else none
            | _ =>
              match parseOffset r5 with
              | none => none
              | some (off, r6) =>
                if r6 = [] then
                  some (((hh * 3600 + mm * 60 + ss : ℕ) : ℤ) * 1000000, off)
                else none
        | _ =>
          match parseOffset r3 with
          | none => none
          | some (off, r4) =>
            if r4 = [] then some (((hh * 3600 + mm * 60 : ℕ) : ℤ) * 1000000, off)
            else none
    | _ =>
      match parseOffset r1 with
      | none => none
      | some (off, r2) =>
        if r2 = [] then some (((hh * 3600 : ℕ) : ℤ) * 1000000, off)
        else none

/-- datetime.fromisoformat on its documented grammar
YYYY-MM-DD[*HH[:MM[:SS[.fff[fff]]]]][+HH:MM] with the separator
restricted to T or space, validating the calendar date. -/
def parseISO (s : String) : Option PyDateTime :=
  match parseDigits 4 s.toList with
  | none => none
  | some (y, r1) =>
    match expectChar '-' r1 with
    | none => none
    | some r2 =>
      match parseDigits 2 r2 with
      | none => none
      | some (mo, r3) =>
        match expectChar '-' r3 with
        | none => none
        | some r4 =>
          match parseDigits 2 r4 with
          | none => none
          | some (d, r5) =>
            if 1 ≤ y ∧ 1 ≤ mo ∧ mo ≤ 12 ∧ 1 ≤ d ∧ d ≤ daysInMonth y mo then
              match r5 with
              | [] =>
                some { ordinal := (dateOrdinal y mo d : ℕ), usec := 0, offsetMin := none }
              | c :: r6 =>
                if c = 'T' ∨ c = ' ' then
                  match parseTime r6 with
                  | none => none
                  | some (us, off) =>
                    some { ordinal := (dateOrdinal y mo d : ℕ), usec := us, offsetMin := off }
                else none
            else none

/-- The str.replace of 'Z' with "+00:00" applied by calculate_nights
(replaces every occurrence). -/
def replaceZChars : List Char → List Char
  | [] => []
  | 'Z' :: cs => '+' :: '0' :: '0' :: ':' :: '0' :: '0' :: replaceZChars cs
  | c :: cs => c :: replaceZChars cs

/-- str.replace('Z', '+00:00') on a string. -/
def replaceZ (s : String) : String := String.mk (replaceZChars s.toList)

/-- Microseconds since the epoch of the UTC instant of a datetime
(naive datetimes read with offset 0). -/
def toUsecUTC (t : PyDateTime) : ℤ :=
  t.ordinal * usecPerDay + t.usec - (t.offsetMin.getD 0) * 60000000

/-- The days attribute of the Python timedelta checkout − checkin:
floor of the difference in days.  Subtracting datetimes of mixed
offset-awareness raises TypeError, modelled as none. -/
def pySubDays (a b : PyDateTime) : Option ℤ :=
  match a.offsetMin, b.offsetMin with
  | none, none => some (Int.fdiv (toUsecUTC a - toUsecUTC b) usecPerDay)
  | some _, some _ => some (Int.fdiv (toUsecUTC a - toUsecUTC b) usecPerDay)
  | _, _ => none

/-- data.py calculate_nights: parse both dates (with 'Z' replaced by
"+00:00"), take the whole-day difference clamped to at least 1; the
bare except turns any parse or subtraction failure into 1. -/
def calculate_nights (checkin checkout : String) : ℤ :=
  match parseISO (replaceZ checkin), parseISO (replaceZ checkout) with
  | some ci, some co =>
    match pySubDays co ci with
    | some d => max 1 d
    | none => 1
  | _, _ => 1

/-- models.py Hotel. -/
structure Hotel where
  id : String
  name : String
  location : String
  description : String
  rating : ℚ
  base_price_per_night : ℚ
  amenities : List String
  image_url : String
  available_rooms : ℤ
  category : String
deriving DecidableEq, Repr, Inhabited

/-- data.py HOTELS: the fixed catalog loaded at startup. -/
def HOTELS : List Hotel := [
  { id := "hotel-1", name := "Seaside Paradise Resort", location := "Miami Beach, FL",
    description := "Luxurious beachfront resort with stunning ocean views and world-class amenities.",
    rating := 48/10, base_price_per_night := 29999/100,
    amenities := ["Pool", "Beach Access", "Spa", "Restaurant", "WiFi", "Gym"],
    image_url := "https://images.unsplash.com/photo-1520250497591-112f2f40a3f4?w=800",
    available_rooms := 15, category := "luxury" },
  { id := "hotel-2", name := "Mountain View Lodge", location := "Aspen, CO",
    description := "Cozy mountain retreat perfect for ski enthusiasts and nature lovers.",
    rating := 46/10, base_price_per_night := 18999/100,
    amenities := ["Ski Access", "Fireplace", "Restaurant", "WiFi", "Hot Tub"],
    image_url := "https://images.unsplash.com/photo-1566073771259-6a8506099945?w=800",
    available_rooms := 8, category := "premium" },
  { id := "hotel-3", name := "Downtown Business Hotel", location := "New York, NY",
    description := "Modern hotel in the heart of Manhattan, perfect for business travelers.",
    rating := 44/10, base_price_per_night := 24999/100,
    amenities := ["Business Center", "WiFi", "Gym", "Restaurant", "Room Service"],
    image_url := "https://images.unsplash.com/photo-1542314831-068cd1dbfeeb?w=800",
    available_rooms := 22, category := "standard" },
  { id := "hotel-4", name := "Budget Inn Express", location := "Orlando, FL",
    description := "Affordable and comfortable accommodation near major attractions.",
    rating := 4, base_price_per_night := 7999/100,
    amenities := ["WiFi", "Parking", "Breakfast"],
    image_url := "https://images.unsplash.com/photo-1551882547-ff40c63fe5fa?w=800",
    available_rooms := 30, category := "economy" },
  { id := "hotel-5", name := "Historic City Center Inn", location := "Boston, MA",
    description := "Charming historic hotel with modern comforts in the heart of Boston.",
    rating := 45/10, base_price_per_night := 16999/100,
    amenities := ["WiFi", "Restaurant", "Bar", "Concierge"],
    image_url := "https://images.unsplash.com/photo-1564501049412-61c2a3083791?w=800",
    available_rooms := 12, category := "standard" },
  { id := "hotel-6", name := "Desert Oasis Spa Resort", location := "Scottsdale, AZ",
    description := "Luxury desert resort with championship golf and world-renowned spa.",
    rating := 49/10, base_price_per_night := 34999/100,
    amenities := ["Golf Course", "Spa", "Pool", "Restaurant", "WiFi", "Gym", "Tennis"],
    image_url := "https://images.unsplash.com/photo-1571896349842-33c89424de2d?w=800",
    available_rooms := 18, category := "luxury" },
  { id := "hotel-7", name := "Coastal Breeze Hotel", location := "San Diego, CA",
    description := "Relaxing beachside hotel with easy access to local attractions.",
    rating := 43/10, base_price_per_night := 15999/100,
    amenities := ["Beach Access", "Pool", "WiFi", "Parking"],
    image_url := "https://images.unsplash.com/photo-1571003123894-1f0594d2b5d9?w=800",
    available_rooms := 25, category := "standard" },
  { id := "hotel-8", name := "Urban Boutique Suites", location := "Seattle, WA",
    description := "Trendy boutique hotel in Seattle's vibrant downtown area.",
    rating := 47/10, base_price_per_night := 21999/100,
    amenities := ["WiFi", "Restaurant", "Bar", "Gym", "Rooftop Terrace"],
    image_url := "https://images.unsplash.com/photo-1596436889106-be35e843f974?w=800",
    available_rooms := 10, category := "premium" }]

/-- data.py get_hotel_by_id, recursing over a catalog. -/
def findHotel : List Hotel → String → Option Hotel
  | [], _ => none
  | h :: hs, hid => if h.id = hid then some h else findHotel hs hid

/-- data.py get_hotel_by_id over the fixed catalog. -/
def get_hotel_by_id (hotel_id : String) : Option Hotel := findHotel HOTELS hotel_id

/-- data.py generate_booking_id; the argument is the random
uuid4().hex string (its first 8 characters are kept, uppercased). -/
def generate_booking_id (hex : String) : String :=
  "BK-" ++ String.mk ((hex.toList.take 8).map Char.toUpper)

/-- data.py generate_confirmation_number; the argument is the random
uuid4().hex string (its first 6 characters are kept, uppercased). -/
def generate_confirmation_number (hex : String) : String :=
  "CONF-" ++ String.mk ((hex.toList.take 6).map Char.toUpper)

/-- models.py BookingRequest. -/
structure BookingRequest where
  hotel_id : String
  checkin : String
  checkout : String
  guests : ℤ
  guest_name : String
  guest_email : String
deriving DecidableEq, Repr

/-- models.py BookingUpdateRequest. -/
structure BookingUpdateRequest where
  status : Option String
  confirmation_number : Option String
deriving DecidableEq, Repr

/-- The booking_data dict stored in bookings_storage (main.py
book_hotel); timestamps are explicit integer clock readings. -/
structure Booking where
  booking_id : String
  hotel_id : String
  status : String
  confirmation_number : Option String
  total_price : ℚ
  guest_name : String
  guest_email : String
  checkin : String
  checkout : String
  guests : ℤ
  created_at : ℤ
  updated_at : ℤ
deriving DecidableEq, Repr

/-- The HTTPException conditions raised by the booking endpoints. -/
inductive ApiError where
  | notFound (detail : String)
  | badRequest (detail : String)
deriving DecidableEq, Repr

/-- bookings_storage: a dict from booking id to record, in insertion
order. -/
abbrev Store := List (String × Booking)

/-- Dict lookup bookings_storage[id]. -/
def storeGet : Store → String → Option Booking
  | [], _ => none
  | (k, v) :: rest, key => if k = key then some v else storeGet rest key

/-- Dict assignment bookings_storage[id] = b: replaces in place when the
key exists, appends otherwise (Python dicts keep insertion order). -/
def storeSet : Store → String → Booking → Store
  | [], key, b => [(key, b)]
  | (k, v) :: rest, key, b =>
    if k = key then (key, b) :: rest else (k, v) :: storeSet rest key b

/-- main.py book_hotel.  The feature-flag gate results (instant booking
flag and price strategy), the random draw for the dynamic strategy, the
uuid hex strings feeding the two generators and the clock are explicit
arguments. -/
def book_hotel (store : Store) (hotel_id : String) (booking : BookingRequest)
    (instant_booking : Bool) (price_strategy : String) (variation : ℚ)
    (bookingHex confirmationHex : String) (now : ℤ) :
    Except ApiError (Store × Booking) :=
  match get_hotel_by_id hotel_id with
  | none => .error (.notFound "Hotel not found")
  | some hotel =>
    if booking.hotel_id ≠ hotel_id then .error (.badRequest "Hotel ID mismatch")
    else
      let nights := calculate_nights booking.checkin booking.checkout
      let price_info :=
        calculate_price_with_strategy hotel.base_price_per_night nights
          price_strategy variation
      let booking_id := generate_booking_id bookingHex
      let status := if instant_booking then "confirmed" else "pending"
      let confirmation :=
        if instant_booking then some (generate_confirmation_number confirmationHex)
        else none
      let total_price :=
        match price_info.breakdown with
        | some bd => (bd.totalEntry).getD price_info.display_price
        | none => price_info.display_price
      let booking_data : Booking :=
        { booking_id := booking_id, hotel_id := hotel_id, status := status,
          confirmation_number := confirmation, total_price := total_price,
          guest_name := booking.guest_name, guest_email := booking.guest_email,
          checkin := booking.checkin, checkout := booking.checkout,
          guests := booking.guests, created_at := now, updated_at := now }
      .ok (storeSet store booking_id booking_data, booking_data)

/-- main.py get_booking: 404 when the id is absent. -/
def get_booking (store : Store) (booking_id : String) : Except ApiError Booking :=
  match storeGet store booking_id with
  | none => .error (.notFound "Booking not found")
  | some b => .ok b

/-- main.py get_bookings: the Python truthiness test if status means the
filter applies only when the status is present and non-empty. -/
def get_bookings (store : Store) (status : Option String) : List Booking :=
  match status with
  | some s =>
    if s = "" then store.map Prod.snd
    else (store.map Prod.snd).filter (fun b => b.status == s)
  | none => store.map Prod.snd

/-- main.py update_booking: 404 on an unknown id; an invalid supplied
status raises 400 before any field is written; supplied fields are
applied in place and updated_at is refreshed only when at least one
field was supplied.  Returns the response (or error) and the resulting
storage. -/
def update_booking (store : Store) (booking_id : String)
    (update_request : BookingUpdateRequest) (now : ℤ) :
    Except ApiError Booking × Store :=
  match storeGet store booking_id with
  | none => (.error (.notFound "Booking not found"), store)
  | some b =>
    match update_request.status with
    | some s =>
      if s = "pending" ∨ s = "confirmed" ∨ s = "rejected" then
        let b1 := { b with status := s }
        let b2 :=
          match update_request.confirmation_number with
          | some c => { b1 with confirmation_number := some c }
          | none => b1
        let b3 := { b2 with updated_at := now }
        (.ok b3, storeSet store booking_id b3)
      else
        (.error (.badRequest
          "Invalid status. Must be one of: pending, confirmed, rejected"), store)
    | none =>
      match update_request.confirmation_number with
      | some c =>
        let b2 := { b with confirmation_number := some c, updated_at := now }
        (.ok b2, storeSet store booking_id b2)
      | none => (.ok b, store)

/-- A concrete stored booking used by closed instances below. -/
def exampleBooking : Booking :=
  { booking_id := "BK-1", hotel_id := "hotel-1", status := "pending",
    confirmation_number := none, total_price := 59998/100,
    guest_name := "Ada", guest_email := "ada@example.com",
    checkin := "2024-01-01", checkout := "2024-01-03", guests := 2,
    created_at := 0, updated_at := 0 }

/-- A concrete booking request on hotel-1 used by closed instances. -/
def exampleRequest : BookingRequest :=
  { hotel_id := "hotel-1", checkin := "2024-01-01", checkout := "2024-01-03",
    guests := 2, guest_name := "Ada", guest_email := "ada@example.com" }

theorem roundHalfEven_ge (q : ℚ) : q - 1/2 ≤ (roundHalfEven q : ℚ) := by
  have h1 : (⌊q⌋ : ℚ) ≤ q := Int.floor_le q
  have h2 : q < ⌊q⌋ + 1 := Int.lt_floor_add_one q
  unfold roundHalfEven
  split_ifs <;> push_cast <;> linarith

theorem roundHalfEven_le (q : ℚ) : (roundHalfEven q : ℚ) ≤ q + 1/2 := by
  have h1 : (⌊q⌋ : ℚ) ≤ q := Int.floor_le q
  unfold roundHalfEven
  split_ifs with a b <;> push_cast <;> linarith

theorem round2_ge (q : ℚ) : q - 1/200 ≤ round2 q := by
  have h := roundHalfEven_ge (q * 100)
  unfold round2
  linarith

theorem round2_le (q : ℚ) : round2 q ≤ q + 1/200 := by
  have h := roundHalfEven_le (q * 100)
  unfold round2
  linarith

theorem store_get_set (store : Store) (key : String) (b : Booking) :
    storeGet (storeSet store key b) key = some b := by
  induction store with
  | nil => simp [storeGet, storeSet]
  | cons p rest ih =>
    obtain ⟨k, v⟩ := p
    by_cases h : k = key <;> simp [storeGet, storeSet, h, ih]

theorem confirmation_nonempty (hex : String) :
    generate_confirmation_number hex ≠ "" := by
  intro h
  have hl := congrArg String.length h
  rw [generate_confirmation_number, String.length_append] at hl
  have h5 : ("CONF-").length = 5 := rfl
  have h0 : ("" : String).length = 0 := rfl
  rw [h5, h0] at hl
  omega

/-- C1: for every positive basePrice and positive nights (and any random
draw, unused here), the "total" strategy returns display price
basePrice × nights, no breakdown, and the label "Total Price". -/
theorem total_strategy_correct (base_price : ℚ) (nights : ℤ) (variation : ℚ)
    (hb : 0 < base_price) (hn : 0 < nights) :
    (calculate_price_with_strategy base_price nights "total" variation).display_price
      = base_price * nights
    ∧ (calculate_price_with_strategy base_price nights "total" variation).breakdown
      = none
    ∧ (calculate_price_with_strategy base_price nights "total" variation).label
      = "Total Price" := by
  refine ⟨?_, ?_, ?_⟩ <;> simp [calculate_price_with_strategy]

/-- Witness for C1 at basePrice = 100, nights = 2. -/
theorem total_strategy_correct_witness :
    (calculate_price_with_strategy 100 2 "total" 1).display_price = 100 * 2
    ∧ (calculate_price_with_strategy 100 2 "total" 1).breakdown = none := by
  have h := total_strategy_correct 100 2 1 (by norm_num) (by norm_num)
  exact ⟨h.1, h.2.1⟩

/-- C2: the "with-fees" strategy computes total = basePrice × nights,
taxes = total × 0.12, fees = 25.00, display = total + taxes + fees, and
a breakdown holding base = total, taxes and grand total rounded to two
decimals, and the fees. -/
theorem with_fees_strategy_correct (base_price : ℚ) (nights : ℤ) (variation : ℚ)
    (hb : 0 < base_price) (hn : 0 < nights) :
    calculate_price_with_strategy base_price nights "with-fees" variation =
      { display_price :=
          base_price * nights + base_price * nights * (12/100) + 25,
        label := "Total with Fees",
        breakdown := some (.withFees (base_price * nights)
          (round2 (base_price * nights * (12/100))) 25
          (round2 (base_price * nights + base_price * nights * (12/100) + 25))) } := by
  simp [calculate_price_with_strategy]

/-- Witness for C2 at basePrice = 100, nights = 2: total 200,
taxes 24.00, fees 25.00, display 249.00. -/
theorem with_fees_strategy_correct_witness :
    calculate_price_with_strategy 100 2 "with-fees" 1 =
      { display_price := 249, label := "Total with Fees",
        breakdown := some (.withFees 200 24 25 249) } := by
  rw [with_fees_strategy_correct 100 2 1 (by norm_num) (by norm_num)]
  norm_num [round2, roundHalfEven, PriceInfo.mk.injEq, Breakdown.withFees.injEq]

/-- C4: every strategy other than "total", "per-night", "with-fees" and
"dynamic" (the empty string included) falls back to the "total"
semantics, returning a result identical to the "total" strategy; no
error is possible (the function is total). -/
theorem fallback_strategy_correct (base_price : ℚ) (nights : ℤ) (strategy : String)
    (variation : ℚ) (hb : 0 < base_price) (hn : 0 < nights)
    (h1 : strategy ≠ "total") (h2 : strategy ≠ "per-night")
    (h3 : strategy ≠ "with-fees") (h4 : strategy ≠ "dynamic") :
    calculate_price_with_strategy base_price nights strategy variation
      = calculate_price_with_strategy base_price nights "total" variation := by
  simp [calculate_price_with_strategy, h1, h2, h3, h4]

/-- Witness for C4 at the empty strategy string. -/
theorem fallback_strategy_correct_witness :
    calculate_price_with_strategy 100 2 "" 1
      = calculate_price_with_strategy 100 2 "total" 1 :=
  fallback_strategy_correct 100 2 "" 1 (by norm_num) (by norm_num)
    (by decide) (by decide) (by decide) (by decide)

theorem update_booking_valid_status (store : Store) (id1 : String) (b : Booking)
    (s : String) (cn : Option String) (now : ℤ)
    (hb : storeGet store id1 = some b)
    (hs : s = "pending" ∨ s = "confirmed" ∨ s = "rejected") :
    update_booking store id1 ⟨some s, cn⟩ now
      = (.ok { b with
                status := s
                confirmation_number := cn.or b.confirmation_number
                updated_at := now },
         storeSet store id1 { b with
                status := s
                confirmation_number := cn.or b.confirmation_number
                updated_at := now }) := by
  cases cn <;> simp [update_booking, hb, hs, Option.or]

theorem update_booking_conf_only (store : Store) (id1 : String) (b : Booking)
    (c : String) (now : ℤ) (hb : storeGet store id1 = some b) :
    update_booking store id1 ⟨none, some c⟩ now
      = (.ok { b with
                confirmation_number := some c
                updated_at := now },
         storeSet store id1 { b with
                confirmation_number := some c
                updated_at := now }) := by
  simp [update_booking, hb]

theorem update_booking_noop (store : Store) (id1 : String) (b : Booking)
    (now : ℤ) (hb : storeGet store id1 = some b) :
    update_booking store id1 ⟨none, none⟩ now = (.ok b, store) := by
  simp [update_booking, hb]

/-- C8: a successful update on a stored booking changes only the
supplied fields: the resulting record carries the supplied status (or
the old one), the supplied confirmation number (or the old one), all
other fields unchanged; updated_at becomes the current clock exactly
when some field was supplied (and is then strictly later than
created_at, given a clock past creation), the storage is rewritten at
that id, and a request supplying neither field returns the record
unchanged with the storage untouched. -/
theorem update_booking_frame (store : Store) (id1 : String) (b : Booking)
    (req : BookingUpdateRequest) (now : ℤ)
    (hb : storeGet store id1 = some b)
    (hvalid : req.status = none ∨ req.status = some "pending"
      ∨ req.status = some "confirmed" ∨ req.status = some "rejected")
    (htime : b.created_at < now) :
    ∃ b2, (update_booking store id1 req now).1 = .ok b2
    ∧ b2.status = req.status.getD b.status
    ∧ b2.confirmation_number = (req.confirmation_number).or b.confirmation_number
    ∧ b2.booking_id = b.booking_id ∧ b2.hotel_id = b.hotel_id
    ∧ b2.total_price = b.total_price ∧ b2.guest_name = b.guest_name
    ∧ b2.guest_email = b.guest_email ∧ b2.checkin = b.checkin
    ∧ b2.checkout = b.checkout ∧ b2.guests = b.guests
    ∧ b2.created_at = b.created_at
    ∧ b2.updated_at
      = (if req.status.isSome || req.confirmation_number.isSome then now
          else b.updated_at)
    ∧ ((req.status.isSome || req.confirmation_number.isSome) = true
        → b.created_at < b2.updated_at)
    ∧ (update_booking store id1 req now).2
      = (if req.status.isSome || req.confirmation_number.isSome
          then storeSet store id1 b2 else store)
    ∧ (req.status = none → req.confirmation_number = none
        → b2 = b ∧ (update_booking store id1 req now).2 = store) := by
  obtain ⟨st, cn⟩ := req
  rcases hvalid with h | h | h | h <;> simp only at h <;> subst h
  · cases cn with
    | none =>
      rw [update_booking_noop store id1 b now hb]
      refine ⟨b, rfl, rfl, rfl, rfl, rfl, rfl, rfl, rfl, rfl, rfl, rfl, rfl, rfl,
        ?_, rfl, ?_⟩
      · intro hfalse
        exact Bool.noConfusion hfalse
      · intro _ _
        exact ⟨rfl, rfl⟩
    | some c =>
      rw [update_booking_conf_only store id1 b c now hb]
      refine ⟨_, rfl, rfl, rfl, rfl, rfl, rfl, rfl, rfl, rfl, rfl, rfl, rfl, rfl,
        ?_, rfl, ?_⟩
      · intro _
        exact htime
      · intro _ hfalse
        exact Option.noConfusion hfalse
  all_goals rw [update_booking_valid_status store id1 b _ cn now hb (by simp)]
  all_goals
    refine ⟨_, rfl, rfl, rfl, rfl, rfl, rfl, rfl, rfl, rfl, rfl, rfl, rfl, rfl,
      ?_, rfl, ?_⟩ <;>
    first
    | exact fun _ => htime
    | exact fun hfalse _ => Option.noConfusion hfalse

/-- Witness for C8: updating the stored pending example booking to
"confirmed" at clock 5 yields status "confirmed" with updated_at 5,
strictly later than the creation clock 0. -/
theorem update_booking_frame_witness :
    ((update_booking [("BK-1", exampleBooking)] "BK-1"
        ⟨some "confirmed", none⟩ 5).1).map Booking.status = .ok "confirmed"
    ∧ ((update_booking [("BK-1", exampleBooking)] "BK-1"
        ⟨some "confirmed", none⟩ 5).1).map Booking.updated_at = .ok 5 := by
  obtain ⟨b2, h1, hs, hc, _, _, _, _, _, _, _, _, _, hu, _⟩ :=
    update_booking_frame [("BK-1", exampleBooking)] "BK-1" exampleBooking
      ⟨some "confirmed", none⟩ 5 rfl
      (Or.inr (Or.inr (Or.inl rfl))) (by decide)
  rw [h1]
  simp only [Except.map]
  rw [hs, hu]
  exact ⟨rfl, rfl⟩

/-- C6: creating a booking on a known hotel with the instant-booking
flag true yields status "confirmed" with a non-empty generated
confirmation code; with the flag false, status "pending" and no code;
the record is stored under its newly generated identifier and an
immediate get returns the identical record. -/
theorem create_booking_correct (store : Store) (hotel_id : String) (hotel : Hotel)
    (req : BookingRequest) (instant : Bool) (strategy : String) (variation : ℚ)
    (bookingHex confirmationHex : String) (now : ℤ)
    (hhot : get_hotel_by_id hotel_id = some hotel)
    (hmatch : req.hotel_id = hotel_id) :
    ∃ store2 b,
      book_hotel store hotel_id req instant strategy variation
        bookingHex confirmationHex now = .ok (store2, b)
      ∧ b.status = (if instant then "confirmed" else "pending")
      ∧ b.confirmation_number
        = (if instant then some (generate_confirmation_number confirmationHex) else none)
      ∧ generate_confirmation_number confirmationHex ≠ ""
      ∧ b.booking_id = generate_booking_id bookingHex
      ∧ storeGet store2 b.booking_id = some b
      ∧ get_booking store2 b.booking_id = .ok b := by
  unfold book_hotel
  rw [hhot]
  simp only [hmatch, ne_eq, not_true_eq_false, if_false, ite_false]
  refine ⟨_, _, rfl, rfl, rfl, confirmation_nonempty _, rfl, store_get_set _ _ _, ?_⟩
  unfold get_booking
  rw [store_get_set]

/-- Witness for C6: booking hotel-1 with the flag true is stored
confirmed with the code generated from the drawn hex string. -/
theorem create_booking_correct_witness :
    (book_hotel [] "hotel-1" exampleRequest true "per-night" 1
        "abcdef1234" "uvw987xyz" 0).map
      (fun p => (p.2.status, p.2.confirmation_number))
      = .ok ("confirmed", some "CONF-UVW987") := by
  obtain ⟨s2, b, h, hs, hc, hne, hid, hget, hgb⟩ :=
    create_booking_correct [] "hotel-1" HOTELS.headI exampleRequest true "per-night" 1
      "abcdef1234" "uvw987xyz" 0 rfl rfl
  rw [h]
  simp [Except.map, hs, hc]
  decide

/-- C10: the total price stored in a created booking comes from the
quote's breakdown entry named "total" when one exists and from the
display price otherwise: under "per-night" it is basePrice × nights
(not the per-night display), under "with-fees" the rounded grand total,
and under "total", "dynamic" or any fallback strategy the display
price. -/
theorem stored_total_price_correct (store : Store) (hotel_id : String) (hotel : Hotel)
    (req : BookingRequest) (instant : Bool) (strategy : String) (variation : ℚ)
    (bookingHex confirmationHex : String) (now : ℤ) (n : ℤ)
    (hhot : get_hotel_by_id hotel_id = some hotel)
    (hmatch : req.hotel_id = hotel_id)
    (hn : n = calculate_nights req.checkin req.checkout) :
    ∃ store2 b,
      book_hotel store hotel_id req instant strategy variation
        bookingHex confirmationHex now = .ok (store2, b)
      ∧ b.total_price
        = (match (calculate_price_with_strategy hotel.base_price_per_night n
              strategy variation).breakdown with
          | some bd => bd.totalEntry.getD
              (calculate_price_with_strategy hotel.base_price_per_night n
                strategy variation).display_price
          | none => (calculate_price_with_strategy hotel.base_price_per_night n
              strategy variation).display_price)
      ∧ (strategy = "per-night" → b.total_price = hotel.base_price_per_night * n)
      ∧ (strategy = "with-fees" → b.total_price
          = round2 (hotel.base_price_per_night * n
              + hotel.base_price_per_night * n * (12/100) + 25))
      ∧ (strategy = "total" → b.total_price = hotel.base_price_per_night * n)
      ∧ (strategy = "dynamic" → b.total_price
          = round2 (hotel.base_price_per_night * n * variation))
      ∧ (strategy ≠ "total" → strategy ≠ "per-night" → strategy ≠ "with-fees"
          → strategy ≠ "dynamic" → b.total_price = hotel.base_price_per_night * n) := by
  subst hn
  unfold book_hotel
  rw [hhot]
  simp only [hmatch, ne_eq, not_true_eq_false, if_false, ite_false]
  refine ⟨_, _, rfl, rfl, ?_, ?_, ?_, ?_, ?_⟩
  · intro h
    subst h
    simp [calculate_price_with_strategy, Breakdown.totalEntry]
  · intro h
    subst h
    simp [calculate_price_with_strategy, Breakdown.totalEntry]
  · intro h
    subst h
    simp [calculate_price_with_strategy, Breakdown.totalEntry]
  · intro h
    subst h
    simp [calculate_price_with_strategy, Breakdown.totalEntry]
  · intro h1 h2 h3 h4
    simp [calculate_price_with_strategy, Breakdown.totalEntry, h1, h2, h3, h4]

/-- Witness for C10: booking hotel-1 (base price 299.99) for two nights
under "per-night" stores total price 599.98 = 29999/50, not the
per-night display price. -/
theorem stored_total_price_correct_witness :
    (book_hotel [] "hotel-1" exampleRequest false "per-night" 1
        "abcdef1234" "uvw987xyz" 0).map (fun p => p.2.total_price)
      = .ok (29999/50) := by
  obtain ⟨s2, b, h, hgen, hper, _⟩ :=
    stored_total_price_correct [] "hotel-1" HOTELS.headI exampleRequest false
      "per-night" 1 "abcdef1234" "uvw987xyz" 0 2 rfl rfl (by decide)
  rw [h]
  simp only [Except.map]
  rw [hper rfl]
  norm_num [HOTELS, List.headI]

/-- C7: updating an unknown booking id fails NotFound with the storage
untouched; updating a known id with a status outside
{pending, confirmed, rejected} fails InvalidArgument with the storage
(hence the stored record, its confirmation code and timestamps)
untouched, even when a confirmation number was supplied alongside. -/
theorem update_booking_rejects_invalid (store : Store) (id1 : String)
    (req : BookingUpdateRequest) (now : ℤ) :
    (storeGet store id1 = none →
      update_booking store id1 req now
        = (.error (.notFound "Booking not found"), store))
    ∧ (∀ b s, storeGet store id1 = some b → req.status = some s →
        s ≠ "pending" → s ≠ "confirmed" → s ≠ "rejected" →
        update_booking store id1 req now
          = (.error (.badRequest
              "Invalid status. Must be one of: pending, confirmed, rejected"),
             store)) := by
  constructor
  · intro h
    simp [update_booking, h]
  · intro b s hb hs h1 h2 h3
    simp [update_booking, hb, hs, h1, h2, h3]

/-- Witness for C7: a missing id gives NotFound; a stored pending
booking updated to the invalid status "bogus" (with a confirmation
number supplied) gives InvalidArgument and the store is unchanged. -/
theorem update_booking_rejects_invalid_witness :
    update_booking [] "missing-id" ⟨some "confirmed", none⟩ 0
      = (.error (.notFound "Booking not found"), ([] : Store))
    ∧ update_booking [("BK-1", exampleBooking)] "BK-1"
        ⟨some "bogus", some "CONF-X"⟩ 5
      = (.error (.badRequest
          "Invalid status. Must be one of: pending, confirmed, rejected"),
         [("BK-1", exampleBooking)]) := by
  constructor
  · exact (update_booking_rejects_invalid [] "missing-id" _ 0).1 rfl
  · exact (update_booking_rejects_invalid [("BK-1", exampleBooking)] "BK-1" _ 5).2
      exampleBooking "bogus" rfl rfl (by decide) (by decide) (by decide)

/-- C9 counterexample: with one stored pending booking, listing with the
empty-string status filter returns the whole store (the Python
truthiness test treats "" as no filter), not the subset of records
whose status equals "" (which is empty). -/
theorem list_empty_filter_counterexample :
    get_bookings [("BK-1", exampleBooking)] (some "")
      ≠ (([("BK-1", exampleBooking)] : Store).map Prod.snd).filter
        (fun b => b.status == "") := by
  decide

/-- C9 (amended): listing with a non-empty status filter returns exactly
the stored records whose status equals the filter; listing with no
filter returns all records; an empty-string filter degrades to no
filter and also returns all records. -/
theorem list_bookings_correct (store : Store) (s : String) :
    (s ≠ "" → get_bookings store (some s)
      = (store.map Prod.snd).filter (fun b => b.status == s))
    ∧ get_bookings store none = store.map Prod.snd
    ∧ get_bookings store (some "") = store.map Prod.snd := by
  refine ⟨fun h => ?_, rfl, ?_⟩
  · simp [get_bookings, h]
  · simp [get_bookings]

/-- Witness for C9 (amended): filtering one stored pending booking by
"pending" returns exactly it. -/
theorem list_bookings_correct_witness :
    get_bookings [("BK-1", exampleBooking)] (some "pending") = [exampleBooking] := by
  have h := (list_bookings_correct [("BK-1", exampleBooking)] "pending").1 (by decide)
  rw [h]
  rfl

/-- C3 counterexample: at basePrice = 0.001, nights = 1 and the in-range
multiplier 0.9, the stored savings is 0 (the code rounds
total − total×multiplier before comparing), while
max(0, total − display) = 0.001; so savings ≠ max(0, total − display)
as the claim states it. -/
theorem dynamic_savings_counterexample :
    (calculate_price_with_strategy (1/1000) 1 "dynamic" (9/10)).breakdown
      = some (.dynamic (1/1000) 0 0)
    ∧ (0 : ℚ) ≠ max 0 ((1/1000 : ℚ)
        - (calculate_price_with_strategy (1/1000) 1 "dynamic" (9/10)).display_price) := by
  constructor
  · simp [calculate_price_with_strategy]
    norm_num [round2, roundHalfEven]
  · simp [calculate_price_with_strategy]
    norm_num [round2, roundHalfEven]

/-- C3 (amended): for positive basePrice and nights and a multiplier in
[0.90, 1.15], the "dynamic" strategy displays total × multiplier rounded
to two decimals (so display is within half a cent of the
[0.90 × total, 1.15 × total] interval), and the breakdown holds the
original total, the display, and a savings equal to
total − total × multiplier rounded to two decimals when the multiplier
is below 1 and 0 otherwise (the code computes savings from the unrounded
dynamic price, so it can differ from max(0, total − display)). -/
theorem dynamic_strategy_correct (base_price : ℚ) (nights : ℤ) (m : ℚ)
    (hb : 0 < base_price) (hn : 0 < nights) (hm1 : 9/10 ≤ m) (hm2 : m ≤ 23/20) :
    (calculate_price_with_strategy base_price nights "dynamic" m).display_price
      = round2 (base_price * nights * m)
    ∧ (9/10) * (base_price * nights) - 1/200
      ≤ (calculate_price_with_strategy base_price nights "dynamic" m).display_price
    ∧ (calculate_price_with_strategy base_price nights "dynamic" m).display_price
      ≤ (23/20) * (base_price * nights) + 1/200
    ∧ (calculate_price_with_strategy base_price nights "dynamic" m).breakdown
      = some (.dynamic (base_price * nights)
          (round2 (base_price * nights * m))
          (if base_price * nights * m < base_price * nights
            then round2 (base_price * nights - base_price * nights * m) else 0))
    ∧ (calculate_price_with_strategy base_price nights "dynamic" m).label
      = "Dynamic Price" := by
  have ht : (0 : ℚ) < base_price * nights := by
    have : (0 : ℚ) < (nights : ℚ) := by exact_mod_cast hn
    positivity
  have hlow : (9/10) * (base_price * nights) ≤ base_price * nights * m := by
    nlinarith
  have hhigh : base_price * nights * m ≤ (23/20) * (base_price * nights) := by
    nlinarith
  have hge := round2_ge (base_price * nights * m)
  have hle := round2_le (base_price * nights * m)
  refine ⟨?_, ?_, ?_, ?_, ?_⟩
  · simp [calculate_price_with_strategy]
  · simp only [calculate_price_with_strategy]
    simp
    linarith
  · simp only [calculate_price_with_strategy]
    simp
    linarith
  · simp only [calculate_price_with_strategy]
    simp
    rcases lt_or_le (base_price * nights * m) (base_price * nights) with h | h
    · rw [if_pos h, if_pos h, if_pos (by linarith)]
    · rw [if_neg (not_lt.mpr h), if_neg (not_lt.mpr h), if_neg (by simp)]
  · simp [calculate_price_with_strategy]

theorem pySub_same (a b : PyDateTime) (h : a.offsetMin.isSome = b.offsetMin.isSome) :
    pySubDays a b = some (Int.fdiv (toUsecUTC a - toUsecUTC b) usecPerDay) := by
  unfold pySubDays
  cases ha : a.offsetMin <;> cases hb : b.offsetMin <;> simp_all

theorem pySub_mixed (a b : PyDateTime) (h : ¬ a.offsetMin.isSome = b.offsetMin.isSome) :
    pySubDays a b = none := by
  unfold pySubDays
  cases ha : a.offsetMin <;> cases hb : b.offsetMin <;> simp_all

/-- C5 counterexample: both "2024-01-01T00:00:00Z" (offset-aware after
the Z replacement) and "2024-01-05T00:00:00" (offset-naive) parse, and
their dates are 4 whole days apart, yet calculate_nights returns 1 and
not max(1, 4) = 4: subtracting mixed-awareness datetimes raises, and the
bare except yields the fallback. -/
theorem nights_mixed_awareness_counterexample :
    (parseISO (replaceZ "2024-01-01T00:00:00Z")).isSome = true
    ∧ (parseISO (replaceZ "2024-01-05T00:00:00")).isSome = true
    ∧ ((parseISO (replaceZ "2024-01-05T00:00:00")).map PyDateTime.ordinal).getD 0
      - ((parseISO (replaceZ "2024-01-01T00:00:00Z")).map PyDateTime.ordinal).getD 0 = 4
    ∧ calculate_nights "2024-01-01T00:00:00Z" "2024-01-05T00:00:00" = 1 := by
  refine ⟨by decide, by decide, by decide, by decide⟩

/-- C5 (amended): calculate_nights always returns an integer ≥ 1 and
never propagates an error; when both strings parse and agree on
offset-awareness it returns max(1, floor of the day difference); a parse
failure on either side, or one aware and one naive operand (whose
subtraction error is absorbed), yields exactly 1; the three concrete
examples of the claim hold. -/
theorem nights_correct (checkin checkout : String) :
    1 ≤ calculate_nights checkin checkout
    ∧ (∀ x y, parseISO (replaceZ checkin) = some x →
        parseISO (replaceZ checkout) = some y →
        x.offsetMin.isSome = y.offsetMin.isSome →
        calculate_nights checkin checkout
          = max 1 (Int.fdiv (toUsecUTC y - toUsecUTC x) usecPerDay))
    ∧ (parseISO (replaceZ checkin) = none ∨ parseISO (replaceZ checkout) = none →
        calculate_nights checkin checkout = 1)
    ∧ (∀ x y, parseISO (replaceZ checkin) = some x →
        parseISO (replaceZ checkout) = some y →
        ¬ x.offsetMin.isSome = y.offsetMin.isSome →
        calculate_nights checkin checkout = 1)
    ∧ calculate_nights "2024-01-01T00:00:00Z" "2024-01-03T00:00:00Z" = 2
    ∧ calculate_nights "garbage" "2024-01-03" = 1
    ∧ calculate_nights "2024-01-03" "2024-01-01" = 1 := by
  refine ⟨?_, ?_, ?_, ?_, by decide, by decide, by decide⟩
  · unfold calculate_nights
    cases hci : parseISO (replaceZ checkin) with
    | none => simp
    | some x =>
      cases hco : parseISO (replaceZ checkout) with
      | none => simp
      | some y =>
        cases hs : pySubDays y x with
        | none => simp [hs]
        | some d => simp [hs, le_max_left]
  · intro x y hx hy hsame
    simp [calculate_nights, hx, hy, pySub_same y x hsame.symm]
  · intro h
    unfold calculate_nights
    rcases h with h | h
    · rw [h]
    · rw [h]
      cases parseISO (replaceZ checkin) <;> rfl
  · intro x y hx hy hdiff
    simp [calculate_nights, hx, hy, pySub_mixed y x (fun hc => hdiff hc.symm)]

/-- Witness for C5 (amended) on two naive dates three days apart. -/
theorem nights_correct_witness :
    calculate_nights "2024-01-01" "2024-01-04" = 3 := by
  have h := (nights_correct "2024-01-01" "2024-01-04").2.1
    { ordinal := (dateOrdinal 2024 1 1 : ℕ), usec := 0, offsetMin := none }
    { ordinal := (dateOrdinal 2024 1 4 : ℕ), usec := 0, offsetMin := none }
    (by decide) (by decide) (by decide)
  rw [h]
  decide

/-- Witness for C3 (amended) at basePrice = 100, nights = 2,
multiplier 1: display 200.00, savings 0. -/
theorem dynamic_strategy_correct_witness :
    (calculate_price_with_strategy 100 2 "dynamic" 1).display_price = 200
    ∧ (calculate_price_with_strategy 100 2 "dynamic" 1).breakdown
      = some (.dynamic 200 200 0) := by
  have h := dynamic_strategy_correct 100 2 1 (by norm_num) (by norm_num)
    (by norm_num) (by norm_num)
  refine ⟨h.1.trans ?_, h.2.2.2.1.trans ?_⟩
  · norm_num [round2, roundHalfEven]
  · norm_num [round2, roundHalfEven]
